import Mathlib

/-!
Verification of the Sales Funnel CRM Python SDK
(`sdks/python/crm_sdk/client.py`).

The SDK is a thin HTTP client: a `CRMClient` holds an API key and a base
URL, installs two default headers on a `requests.Session`, and every
namespace method (`Leads`, `Webhooks`, `Integrations`, `Analytics`) builds
a request (method, URL, query parameters, JSON body) and funnels the
response through the shared `_request` helper, which decodes the body as
JSON and translates non-OK responses into a raised `CRMError`.

The embedding below models:
 * JSON values (`JSON`) and Python `dict` semantics over association
   lists in insertion order (`dictInsert` updates an existing key in
   place, otherwise appends; `dictGet?` looks a key up);
 * request construction of each namespace method (`Op`, `opRequest`),
   mirroring the bodies/params each Python method builds;
 * the response-handling half of `CRMClient._request`
   (`handleResponse`): the `try: response.json() except:` fallback, the
   `response.ok` test and the `CRMError` construction via `dict.get`
   with defaults.  `requests.Response.ok` is `False` exactly when
   `raise_for_status` would raise, i.e. for HTTP status 400..599; this
   is captured by `responseOk`.  A result of `none` from
   `handleResponse` models a Python exception other than `CRMError`
   escaping `_request` (an `AttributeError` from calling `.get` on a
   non-dict value).
-/

namespace CrmSdk

/-- JSON values, as produced by `response.json()` and consumed by
`json=`/`params=` arguments. Python ints are unbounded, hence `Int`. -/
inductive JSON where
  | null
  | bool (b : Bool)
  | num (n : Int)
  | str (s : String)
  | arr (elems : List JSON)
  | obj (fields : List (String × JSON))
  deriving Repr

/-- Python `dict` lookup `d[k]` / `k in d`, over the insertion-ordered
association-list model of a dict (keys are unique by construction). -/
def dictGet? : List (String × JSON) → String → Option JSON
  | [], _ => none
  | (k', v) :: d, k => if k' = k then some v else dictGet? d k

/-- Python `d[k] = v`: updates the value in place if `k` is present
(keeping its position), otherwise appends the new pair at the end. -/
def dictInsert : List (String × JSON) → String → JSON → List (String × JSON)
  | [], k, v => [(k, v)]
  | (k', v') :: d, k, v =>
      if k' = k then (k, v) :: d else (k', v') :: dictInsert d k v

/-- Python `k in d`. -/
def dictHasKey (d : List (String × JSON)) (k : String) : Bool :=
  (dictGet? d k).isSome

/-- Python `j.get(k, default)`. Defined (`some`) only when `j` is a dict;
on any other value Python raises `AttributeError`, modelled by `none`. -/
def pyGet? (j : JSON) (k : String) (default : JSON) : Option JSON :=
  match j with
  | .obj fields => some ((dictGet? fields k).getD default)
  | _ => none

/-- Python truthiness of an `Optional[str]` argument: `None` and the
empty string are falsy, every other string is truthy. -/
def pyTruthyStr : Option String → Bool
  | none => false
  | some s => !s.isEmpty

/-- Python truthiness of an `Optional[Dict]` argument: `None` and the
empty dict are falsy. -/
def pyTruthyObj : Option (List (String × JSON)) → Bool
  | none => false
  | some fields => !fields.isEmpty

/-- The `CRMClient` constructor state: `api_key` and `base_url` as fixed
by `__init__`. -/
structure CRMClient where
  api_key : String
  base_url : String

/-- The default headers `__init__` installs on the `requests.Session`,
carried by every request the session issues. -/
def sessionHeaders (c : CRMClient) : List (String × String) :=
  [("X-API-Key", c.api_key), ("Content-Type", "application/json")]

/-- An outgoing HTTP request as assembled by a namespace method together
with `_request` (URL building) and the session (headers). -/
structure HttpRequest where
  method : String
  url : String
  headers : List (String × String)
  params : List (String × JSON)
  body : Option JSON

/-- An incoming HTTP response: its status code, the outcome of decoding
its body as JSON (`none` when `response.json()` raises), and its raw
text. -/
structure Response where
  status : Nat
  decoded : Option JSON
  text : String

/-- `requests.Response.ok`: `False` exactly when `raise_for_status`
raises, i.e. for client-error (4xx) and server-error (5xx) statuses. -/
def responseOk (status : Nat) : Bool :=
  !(400 ≤ status && status ≤ 599)

/-- The `CRMError` exception's fields. `message` and `code` are whatever
values `dict.get` returned, hence arbitrary JSON, not just strings. -/
structure CRMError where
  message : JSON
  code : JSON
  status : Nat
  deriving Repr

/-- The `try: data = response.json() except: data = {"error": ...}`
block of `CRMClient._request`. -/
def decodedData (r : Response) : JSON :=
  match r.decoded with
  | some j => j
  | none => .obj [("error", .obj [("message", .str r.text), ("code", .str "UNKNOWN")])]

/-- The response-handling half of `CRMClient._request`: on an OK
response return the decoded data, otherwise raise (`Except.error`) a
`CRMError` built from `data.get("error", {}).get("message", "API
request failed")`, `...get("code", "UNKNOWN_ERROR")` and the status.
`none` models a non-`CRMError` Python exception from `.get` on a
non-dict. -/
def handleResponse (r : Response) : Option (Except CRMError JSON) :=
  let data := decodedData r
  if responseOk r.status then
    some (.ok data)
  else do
    let err ← pyGet? data "error" (.obj [])
    let msg ← pyGet? err "message" (.str "API request failed")
    let code ← pyGet? err "code" (.str "UNKNOWN_ERROR")
    some (.error { message := msg, code := code, status := r.status })

/-- Python `if x: data[key] = x` for an `Optional[str]` argument `x`. -/
def addIfTruthy (data : List (String × JSON)) (key : String) :
    Option String → List (String × JSON)
  | some s => if s.isEmpty then data else dictInsert data key (.str s)
  | none => data

/-- Python `if x: data[key] = x` for an `Optional[Dict]` argument `x`. -/
def addIfTruthyObj (data : List (String × JSON)) (key : String) :
    Option (List (String × JSON)) → List (String × JSON)
  | some fields => if fields.isEmpty then data else dictInsert data key (.obj fields)
  | none => data

/-- Query parameters built by `Leads.list`. -/
def leadsListParams (page limit : Int) (status search : Option String) :
    List (String × JSON) :=
  addIfTruthy (addIfTruthy [("page", .num page), ("limit", .num limit)]
    "status" status) "search" search

/-- Request body built by `Leads.create`. -/
def leadsCreateBody (client_name : String)
    (email mobile_number company source : Option String) (status : String)
    (notes : Option String) (custom_fields : Option (List (String × JSON))) :
    List (String × JSON) :=
  addIfTruthyObj
    (addIfTruthy
      (addIfTruthy
        (addIfTruthy
          (addIfTruthy
            (addIfTruthy [("clientName", .str client_name), ("status", .str status)]
              "email" email)
            "mobileNumber" mobile_number)
          "company" company)
        "source" source)
      "notes" notes)
    "customFields" custom_fields

/-- The `field_map` dict of `Leads.update`, read through
`field_map.get(key, key)`: three snake_case names are remapped, every
other name maps to itself. -/
def field_map : String → String
  | "client_name" => "clientName"
  | "mobile_number" => "mobileNumber"
  | "custom_fields" => "customFields"
  | key => key

/-- Request body built by `Leads.update` from its `**kwargs`, given as
the ordered list of (name, value) pairs the caller supplied (Python
keyword-argument names are pairwise distinct, but two distinct names may
be remapped to the same wire key). -/
def leadsUpdateBody (kwargs : List (String × JSON)) : List (String × JSON) :=
  kwargs.foldl (fun data kv => dictInsert data (field_map kv.1) kv.2) []

/-- Request body built by `Leads.bulk_import`. -/
def leadsBulkImportBody (records : List JSON) (skip_duplicates : Bool) : JSON :=
  .obj [("records", .arr records), ("entityType", .str "leads"),
        ("options", .obj [("skipDuplicates", .bool skip_duplicates)])]

/-- Query parameters built by `Leads.export`. -/
def leadsExportParams (format : String) (status : Option String) :
    List (String × JSON) :=
  addIfTruthy [("format", .str format), ("entityType", .str "leads")]
    "status" status

/-- Request body built by `Webhooks.subscribe`. -/
def webhooksSubscribeBody (url : String) (events : List String)
    (auth_type : String) (auth_config : Option (List (String × JSON))) :
    List (String × JSON) :=
  addIfTruthyObj
    [("url", .str url), ("events", .arr (events.map .str)),
     ("authType", .str auth_type)]
    "authConfig" auth_config

/-- Query parameters built by `Integrations.list`. -/
def integrationsListParams (category : Option String) : List (String × JSON) :=
  addIfTruthy [] "category" category

/-- Default of the `days` parameter of `Analytics.usage`. -/
def analyticsUsageDefaultDays : Int := 30

/-- One invocation of a namespace method, with the arguments that shape
its outgoing request. -/
inductive Op where
  | leadsList (page limit : Int) (status search : Option String)
  | leadsGet (lead_id : String)
  | leadsCreate (client_name : String)
      (email mobile_number company source : Option String) (status : String)
      (notes : Option String) (custom_fields : Option (List (String × JSON)))
  | leadsUpdate (lead_id : String) (kwargs : List (String × JSON))
  | leadsDelete (lead_id : String)
  | leadsBulkImport (records : List JSON) (skip_duplicates : Bool)
  | leadsExport (format : String) (status : Option String)
  | webhooksList
  | webhooksSubscribe (url : String) (events : List String)
      (auth_type : String) (auth_config : Option (List (String × JSON)))
  | webhooksUnsubscribe (subscription_id : String)
  | integrationsList (category : Option String)
  | integrationsInstall (slug : String) (config : List (String × JSON))
  | integrationsUninstall (slug : String)
  | analyticsUsage (days : Int)

/-- The HTTP method each namespace method passes to `_request`. -/
def opMethod : Op → String
  | .leadsList .. => "GET"
  | .leadsGet .. => "GET"
  | .leadsCreate .. => "POST"
  | .leadsUpdate .. => "PUT"
  | .leadsDelete .. => "DELETE"
  | .leadsBulkImport .. => "POST"
  | .leadsExport .. => "GET"
  | .webhooksList => "GET"
  | .webhooksSubscribe .. => "POST"
  | .webhooksUnsubscribe .. => "DELETE"
  | .integrationsList .. => "GET"
  | .integrationsInstall .. => "POST"
  | .integrationsUninstall .. => "DELETE"
  | .analyticsUsage .. => "GET"

/-- The endpoint string each namespace method passes to `_request`
(Python f-strings for the id-bearing paths). -/
def opEndpoint : Op → String
  | .leadsList .. => "/api/v1/leads"
  | .leadsGet lead_id => "/api/v1/leads/" ++ lead_id
  | .leadsCreate .. => "/api/v1/leads"
  | .leadsUpdate lead_id _ => "/api/v1/leads/" ++ lead_id
  | .leadsDelete lead_id => "/api/v1/leads/" ++ lead_id
  | .leadsBulkImport .. => "/api/bulk/import"
  | .leadsExport .. => "/api/bulk/export"
  | .webhooksList => "/api/webhooks/outgoing"
  | .webhooksSubscribe .. => "/api/webhooks/outgoing"
  | .webhooksUnsubscribe subscription_id => "/api/webhooks/outgoing/" ++ subscription_id
  | .integrationsList .. => "/api/integrations"
  | .integrationsInstall slug _ => "/api/integrations/" ++ slug ++ "/install"
  | .integrationsUninstall slug => "/api/integrations/" ++ slug ++ "/install"
  | .analyticsUsage days => "/api/analytics/usage?days=" ++ toString days

/-- The `params=` keyword each namespace method passes to `_request`
(empty when it passes none). -/
def opParams : Op → List (String × JSON)
  | .leadsList page limit status search => leadsListParams page limit status search
  | .leadsExport format status => leadsExportParams format status
  | .integrationsList category => integrationsListParams category
  | _ => []

/-- The `json=` keyword each namespace method passes to `_request`
(`none` when it passes no body). -/
def opBody : Op → Option JSON
  | .leadsCreate client_name email mobile_number company source status notes custom_fields =>
      some (.obj (leadsCreateBody client_name email mobile_number company source
        status notes custom_fields))
  | .leadsUpdate _ kwargs => some (.obj (leadsUpdateBody kwargs))
  | .leadsBulkImport records skip_duplicates =>
      some (leadsBulkImportBody records skip_duplicates)
  | .webhooksSubscribe url events auth_type auth_config =>
      some (.obj (webhooksSubscribeBody url events auth_type auth_config))
  | .integrationsInstall _ config => some (.obj [("config", .obj config)])
  | _ => none

/-- The request-construction half of `CRMClient._request` together with
the session: URL is `f"{self.base_url}{endpoint}"`, headers are the
session defaults. -/
def mkRequest (c : CRMClient) (method endpoint : String)
    (params : List (String × JSON)) (body : Option JSON) : HttpRequest :=
  { method := method, url := c.base_url ++ endpoint,
    headers := sessionHeaders c, params := params, body := body }

/-- The outgoing request of one namespace-method invocation. -/
def opRequest (c : CRMClient) (op : Op) : HttpRequest :=
  mkRequest c (opMethod op) (opEndpoint op) (opParams op) (opBody op)


/-! ## Dictionary lemmas -/

theorem dictGet?_insert (d : List (String × JSON)) (k k' : String) (v : JSON) :
    dictGet? (dictInsert d k v) k' = if k = k' then some v else dictGet? d k' := by
  induction d with
  | nil => simp [dictInsert, dictGet?]
  | cons kv d ih =>
      obtain ⟨k₀, v₀⟩ := kv
      by_cases h : k₀ = k
      · subst h
        simp only [dictInsert, if_pos rfl, dictGet?]
        split_ifs <;> simp_all [dictGet?]
      · simp only [dictInsert, if_neg h, dictGet?, ih]
        split_ifs <;> simp_all

theorem dictGet?_append_left_none (d₁ d₂ : List (String × JSON)) (k : String)
    (h : dictGet? d₁ k = none) : dictGet? (d₁ ++ d₂) k = dictGet? d₂ k := by
  induction d₁ with
  | nil => simp
  | cons kv d₁ ih =>
      obtain ⟨k₀, v₀⟩ := kv
      simp only [dictGet?] at h ⊢
      by_cases hk : k₀ = k
      · simp [hk] at h
      · simp only [if_neg hk] at h ⊢
        exact ih h

theorem dictInsert_of_get_none (d : List (String × JSON)) (k : String) (v : JSON)
    (h : dictGet? d k = none) : dictInsert d k v = d ++ [(k, v)] := by
  induction d with
  | nil => rfl
  | cons kv d ih =>
      obtain ⟨k₀, v₀⟩ := kv
      simp only [dictGet?] at h
      by_cases hk : k₀ = k
      · simp [hk] at h
      · simp only [if_neg hk] at h
        simp only [dictInsert, if_neg hk, List.cons_append, List.cons.injEq, true_and]
        exact ih h

theorem dictGet?_addIfTruthy (d : List (String × JSON)) (key k : String)
    (o : Option String) :
    dictGet? (addIfTruthy d key o) k =
      if pyTruthyStr o = true ∧ key = k then some (.str (o.getD ""))
      else dictGet? d k := by
  cases o with
  | none => simp [addIfTruthy, pyTruthyStr]
  | some s =>
      by_cases hs : s.isEmpty
      · simp [addIfTruthy, hs, pyTruthyStr]
      · simp [addIfTruthy, hs, pyTruthyStr, dictGet?_insert]

theorem dictGet?_addIfTruthyObj (d : List (String × JSON)) (key k : String)
    (o : Option (List (String × JSON))) :
    dictGet? (addIfTruthyObj d key o) k =
      if pyTruthyObj o = true ∧ key = k then some (.obj (o.getD []))
      else dictGet? d k := by
  cases o with
  | none => simp [addIfTruthyObj, pyTruthyObj]
  | some fields =>
      by_cases hs : fields.isEmpty
      · simp [addIfTruthyObj, hs, pyTruthyObj]
      · simp [addIfTruthyObj, hs, pyTruthyObj, dictGet?_insert]

theorem responseOk_false_of_err (status : Nat) (h1 : 400 ≤ status)
    (h2 : status ≤ 599) : responseOk status = false := by
  simp [responseOk]
  omega

theorem responseOk_true_of_2xx (status : Nat) (h1 : 200 ≤ status)
    (h2 : status ≤ 299) : responseOk status = true := by
  simp [responseOk]
  omega

/-! ## Claim theorems: the response pipeline -/

/-- C6: for every response with a 2xx status whose body decodes as JSON,
the namespace method returns the decoded body itself, unchanged — no
mutation, filtering or schema validation. A `Response` is
`⟨status, decoded body, raw text⟩`, a `CRMError` is
`⟨message, code, status⟩`. -/
theorem success_returns_decoded_body (status : Nat) (j : JSON) (text : String)
    (h1 : 200 ≤ status) (h2 : status ≤ 299) :
    handleResponse ⟨status, some j, text⟩ = some (.ok j) := by
  simp [handleResponse, decodedData, responseOk_true_of_2xx status h1 h2]

theorem success_returns_decoded_body_witness :
    200 ≤ 200 ∧ 200 ≤ 299 ∧
    handleResponse ⟨200, some (.obj [("id", .str "42"), ("clientName", .str "Acme")]), ""⟩ =
      some (.ok (.obj [("id", .str "42"), ("clientName", .str "Acme")])) :=
  ⟨by decide, by decide,
    success_returns_decoded_body 200
      (.obj [("id", .str "42"), ("clientName", .str "Acme")]) ""
      (by decide) (by decide)⟩

/-- C10: for every response with a 2xx status whose body fails to decode
as JSON, no error is raised; the method returns the synthetic dictionary
with the raw text under error.message and code UNKNOWN as if it were the
decoded body. -/
theorem success_unparsable_returns_error_shape (status : Nat) (text : String)
    (h1 : 200 ≤ status) (h2 : status ≤ 299) :
    handleResponse ⟨status, none, text⟩ =
      some (.ok (.obj [("error",
        .obj [("message", .str text), ("code", .str "UNKNOWN")])])) := by
  simp [handleResponse, decodedData, responseOk_true_of_2xx status h1 h2]

theorem success_unparsable_returns_error_shape_witness :
    200 ≤ 204 ∧ 204 ≤ 299 ∧
    handleResponse ⟨204, none, "not json"⟩ =
      some (.ok (.obj [("error",
        .obj [("message", .str "not json"), ("code", .str "UNKNOWN")])])) :=
  ⟨by decide, by decide,
    success_unparsable_returns_error_shape 204 "not json" (by decide) (by decide)⟩

/-- C1 (counterexample): a 304 response is non-2xx and its body has the
exact shape with error.message and error.code, yet no CRMError is
raised — `response.ok` is true for every status below 400, so the
decoded body is returned as a success. -/
theorem non2xx_304_no_raise :
    handleResponse ⟨304,
      some (.obj [("error", .obj [("message", .str "boom"), ("code", .str "E1")])]),
      ""⟩ =
      some (.ok (.obj [("error",
        .obj [("message", .str "boom"), ("code", .str "E1")])])) := rfl

/-- C1 (amended): for every response whose status is in 400..599 (the
statuses `response.ok` rejects) and whose body decodes as an object
mapping "error" to an object, the raised CRMError carries error.message
(default "API request failed"), error.code (default "UNKNOWN_ERROR"),
and the actual HTTP status. -/
theorem crmError_from_error_body (status : Nat) (h1 : 400 ≤ status)
    (h2 : status ≤ 599) (fields : List (String × JSON)) (text : String) :
    handleResponse ⟨status, some (.obj [("error", .obj fields)]), text⟩ =
      some (.error
        ⟨(dictGet? fields "message").getD (.str "API request failed"),
         (dictGet? fields "code").getD (.str "UNKNOWN_ERROR"),
         status⟩) := by
  simp [handleResponse, decodedData, responseOk_false_of_err status h1 h2,
    pyGet?, dictGet?]

theorem crmError_from_error_body_witness :
    400 ≤ 404 ∧ 404 ≤ 599 ∧
    handleResponse ⟨404,
      some (.obj [("error",
        .obj [("message", .str "Lead not found"), ("code", .str "NOT_FOUND")])]),
      ""⟩ =
      some (.error ⟨.str "Lead not found", .str "NOT_FOUND", 404⟩) :=
  ⟨by decide, by decide,
    crmError_from_error_body 404 (by decide) (by decide)
      [("message", .str "Lead not found"), ("code", .str "NOT_FOUND")] ""⟩

/-- C2 (counterexample): a 404 response with an unparsable body raises a
CRMError whose code is the string "UNKNOWN" — not "UNKNOWN_ERROR" as
claimed — because the synthetic fallback body already carries an
error.code key, so the "UNKNOWN_ERROR" default is never reached. -/
theorem unparsable_code_is_UNKNOWN :
    handleResponse ⟨404, none, "oops"⟩ =
      some (.error ⟨.str "oops", .str "UNKNOWN", 404⟩) ∧
    JSON.str "UNKNOWN" ≠ JSON.str "UNKNOWN_ERROR" := by
  constructor
  · rfl
  · simp

/-- C2 (amended): for every response whose status is in 400..599 and
whose body fails to decode as JSON, the raised CRMError has code
"UNKNOWN" and its message equals the raw response text. -/
theorem crmError_unparsable_body (status : Nat) (text : String)
    (h1 : 400 ≤ status) (h2 : status ≤ 599) :
    handleResponse ⟨status, none, text⟩ =
      some (.error ⟨.str text, .str "UNKNOWN", status⟩) := by
  simp [handleResponse, decodedData, responseOk_false_of_err status h1 h2,
    pyGet?, dictGet?]

theorem crmError_unparsable_body_witness :
    400 ≤ 500 ∧ 500 ≤ 599 ∧
    handleResponse ⟨500, none, "Internal Server Error"⟩ =
      some (.error ⟨.str "Internal Server Error", .str "UNKNOWN", 500⟩) :=
  ⟨by decide, by decide,
    crmError_unparsable_body 500 "Internal Server Error" (by decide) (by decide)⟩

/-! ## Claim theorems: request construction -/

/-- C3: every `Leads.create` body contains clientName and status with the
caller's values, and contains each optional field, carrying the caller's
value, exactly when the corresponding argument is truthy (absent or empty
values are omitted); the scenario create(client_name="Acme Lead",
email="a@b.com") produces exactly the three-key body. -/
theorem leads_create_body_fields (client_name : String)
    (email mobile_number company source : Option String) (status : String)
    (notes : Option String) (custom_fields : Option (List (String × JSON))) :
    dictGet? (leadsCreateBody client_name email mobile_number company source
        status notes custom_fields) "clientName" = some (.str client_name) ∧
    dictGet? (leadsCreateBody client_name email mobile_number company source
        status notes custom_fields) "status" = some (.str status) ∧
    dictGet? (leadsCreateBody client_name email mobile_number company source
        status notes custom_fields) "email" =
      (if pyTruthyStr email then some (.str (email.getD "")) else none) ∧
    dictGet? (leadsCreateBody client_name email mobile_number company source
        status notes custom_fields) "mobileNumber" =
      (if pyTruthyStr mobile_number then some (.str (mobile_number.getD "")) else none) ∧
    dictGet? (leadsCreateBody client_name email mobile_number company source
        status notes custom_fields) "company" =
      (if pyTruthyStr company then some (.str (company.getD "")) else none) ∧
    dictGet? (leadsCreateBody client_name email mobile_number company source
        status notes custom_fields) "source" =
      (if pyTruthyStr source then some (.str (source.getD "")) else none) ∧
    dictGet? (leadsCreateBody client_name email mobile_number company source
        status notes custom_fields) "notes" =
      (if pyTruthyStr notes then some (.str (notes.getD "")) else none) ∧
    dictGet? (leadsCreateBody client_name email mobile_number company source
        status notes custom_fields) "customFields" =
      (if pyTruthyObj custom_fields then some (.obj (custom_fields.getD [])) else none) ∧
    leadsCreateBody "Acme Lead" (some "a@b.com") none none none "NEW" none none =
      [("clientName", .str "Acme Lead"), ("status", .str "NEW"),
       ("email", .str "a@b.com")] := by
  refine ⟨?_, ?_, ?_, ?_, ?_, ?_, ?_, ?_, rfl⟩ <;>
    simp [leadsCreateBody, dictGet?_addIfTruthy, dictGet?_addIfTruthyObj, dictGet?]

/-- C5 (counterexample): `Leads.list` called with the supplied (but
empty, hence falsy) status string omits the status key from the query —
the claim says a supplied status is always included verbatim. -/
theorem leads_list_empty_status_omitted :
    leadsListParams 1 50 (some "") none = [("page", .num 1), ("limit", .num 50)] ∧
    dictGet? (leadsListParams 1 50 (some "") none) "status" = none :=
  ⟨rfl, rfl⟩

/-- C5 (amended): the `Leads.list` query always carries page and limit
with the caller's values; status and search are each present, with the
supplied value verbatim, exactly when supplied and truthy (non-empty),
and absent when not supplied or empty. -/
theorem leads_list_params_fields (page limit : Int)
    (status search : Option String) :
    dictGet? (leadsListParams page limit status search) "page" =
      some (.num page) ∧
    dictGet? (leadsListParams page limit status search) "limit" =
      some (.num limit) ∧
    dictGet? (leadsListParams page limit status search) "status" =
      (if pyTruthyStr status then some (.str (status.getD "")) else none) ∧
    dictGet? (leadsListParams page limit status search) "search" =
      (if pyTruthyStr search then some (.str (search.getD "")) else none) := by
  refine ⟨?_, ?_, ?_, ?_⟩ <;> simp [leadsListParams, dictGet?_addIfTruthy, dictGet?]

/-- C4 (counterexample): when two supplied names are remapped to the same
wire key, the later value silently overwrites the earlier one: update
with client_name="X" and clientName="Y" sends only clientName:"Y", so the
renamed pair's value "X" is not in the body as the claim requires. -/
theorem leads_update_collision :
    leadsUpdateBody [("client_name", .str "X"), ("clientName", .str "Y")] =
      [("clientName", .str "Y")] ∧
    dictGet? (leadsUpdateBody [("client_name", .str "X"), ("clientName", .str "Y")])
      "clientName" ≠ some (.str "X") := by
  refine ⟨rfl, ?_⟩
  show some (JSON.str "Y") ≠ some (JSON.str "X")
  simp

theorem leadsUpdate_foldl (l : List (String × JSON)) :
    ∀ acc : List (String × JSON),
      (∀ kv ∈ l, dictGet? acc (field_map kv.1) = none) →
      (l.map (fun kv => field_map kv.1)).Nodup →
      l.foldl (fun data kv => dictInsert data (field_map kv.1) kv.2) acc =
        acc ++ l.map (fun kv => (field_map kv.1, kv.2)) := by
  induction l with
  | nil => intro acc _ _; simp
  | cons kv l ih =>
      intro acc hacc hnodup
      obtain ⟨k, v⟩ := kv
      have hk : dictGet? acc (field_map k) = none := hacc (k, v) (by simp)
      simp only [List.map_cons, List.nodup_cons] at hnodup
      have hfresh : ∀ kv' ∈ l,
          dictGet? (acc ++ [(field_map k, v)]) (field_map kv'.1) = none := by
        intro kv' hkv'
        rw [dictGet?_append_left_none _ _ _
          (hacc kv' (List.mem_cons_of_mem _ hkv'))]
        have hne : ¬ (field_map k = field_map kv'.1) := fun heq =>
          hnodup.1 (by rw [heq]; exact List.mem_map_of_mem _ hkv')
        simp [dictGet?, hne]
      rw [List.foldl_cons, dictInsert_of_get_none acc (field_map k) v hk,
        ih (acc ++ [(field_map k, v)]) hfresh hnodup.2]
      simp

/-- C4 (amended): for every kwargs list in which no two supplied names
are remapped to the same wire key, the `Leads.update` body is exactly the
input with client_name, mobile_number and custom_fields renamed to their
camelCase forms and every other name passed through with its value
unchanged; when two names collide, only the later pair's value is kept. -/
theorem leads_update_remap (kwargs : List (String × JSON))
    (h : (kwargs.map (fun kv => field_map kv.1)).Nodup) :
    leadsUpdateBody kwargs = kwargs.map (fun kv => (field_map kv.1, kv.2)) := by
  unfold leadsUpdateBody
  rw [leadsUpdate_foldl kwargs [] (fun kv _ => rfl) h]
  simp

theorem leads_update_remap_witness :
    (([("client_name", JSON.str "X"), ("foo", JSON.str "Y")]).map
      (fun kv => field_map kv.1)).Nodup ∧
    leadsUpdateBody [("client_name", .str "X"), ("foo", .str "Y")] =
      [("clientName", .str "X"), ("foo", .str "Y")] :=
  ⟨by decide,
    leads_update_remap [("client_name", .str "X"), ("foo", .str "Y")] (by decide)⟩

/-- C7: every request issued by every namespace method carries the
X-API-Key header with the api_key fixed at construction and the
Content-Type application/json header, and its URL is the plain string
concatenation of base_url and the endpoint path, with no slash
normalization. -/
theorem request_headers_and_url (c : CRMClient) (op : Op) :
    (opRequest c op).headers =
      [("X-API-Key", c.api_key), ("Content-Type", "application/json")] ∧
    (opRequest c op).url = c.base_url ++ opEndpoint op :=
  ⟨rfl, rfl⟩

/-- C8: `Leads.bulk_import` issues a POST to /api/bulk/import whose body
is exactly the envelope with the caller's record list unchanged,
entityType "leads" and options.skipDuplicates set to the flag. -/
theorem bulk_import_envelope (c : CRMClient) (records : List JSON)
    (skip_duplicates : Bool) :
    opRequest c (.leadsBulkImport records skip_duplicates) =
      ⟨"POST", c.base_url ++ "/api/bulk/import", sessionHeaders c, [],
        some (.obj [("records", .arr records), ("entityType", .str "leads"),
          ("options", .obj [("skipDuplicates", .bool skip_duplicates)])])⟩ :=
  rfl

/-- C9: `Analytics.usage` issues a GET whose path is exactly the string
"/api/analytics/usage?days=" followed by the decimal rendering of days
(`toString` on `Int` matches Python's f-string rendering), with no
structured query parameters and no body; the default for days is 30. -/
theorem analytics_usage_query (c : CRMClient) (days : Int) :
    opRequest c (.analyticsUsage days) =
      ⟨"GET", c.base_url ++ ("/api/analytics/usage?days=" ++ toString days),
        sessionHeaders c, [], none⟩ ∧
    opEndpoint (.analyticsUsage days) =
      "/api/analytics/usage?days=" ++ toString days ∧
    analyticsUsageDefaultDays = 30 :=
  ⟨rfl, rfl, rfl⟩


end CrmSdk
